import Mathlib

/-!
Shallow embedding of `src/app.py` (a Flask web UI for a remote OneDrive-style
drive API) and verification of the specification's claims about it.

Modelling conventions:
* Environment configuration (`AUTH_FLOW`, `CLIENT_ID`, ...) is a `Config`
  record; unset variables are `none` (Python `os.environ.get` returns `None`).
* Python f-string interpolation of a possibly-`None` value is `pyStr`
  (`None` renders as the literal string `"None"`).
* Python truthiness of an optional string (`if token_cache:`) is
  `pyTruthyStr`: `None` and `""` are falsy.
* Each Flask route handler is split into the outbound HTTP request it
  constructs (a pure function of the configuration and the user input) and
  the handler outcome as a function of the remote response, which is passed
  in explicitly.  An outcome is a `HandlerResult`.
* Raised exceptions / error surfacing are explicit constructors
  (`TokenOutcome.authError`, `HandlerResult.remoteError`); a branch that the
  source code cannot reach never produces them.
-/

namespace OneDriveApp

/-- The environment-sourced configuration (`src/app.py` lines 45–49).
`auth_flow` is the value of `AUTH_FLOW` already lower-cased, with the default
`"device"` applied; the other fields are `none` when the variable is unset. -/
structure Config where
  auth_flow : String
  client_id : Option String
  tenant_id : Option String
  client_secret : Option String
  target_user : Option String
deriving DecidableEq, Repr

/-- Python f-string rendering of an optional string: `None` prints as "None". -/
def pyStr : Option String → String
  | none => "None"
  | some s => s

/-- Python truthiness of an optional string: `None` and `""` are falsy. -/
def pyTruthyStr : Option String → Bool
  | none => false
  | some s => decide (s ≠ "")

/-- `GRAPH` constant (`src/app.py` line 51). -/
def GRAPH : String := "https://graph.microsoft.com/v1.0"

/-- `drive_prefix()` (`src/app.py` lines 89–92). -/
def drive_prefix (cfg : Config) : String :=
  if cfg.auth_flow = "app" then "/users/" ++ pyStr cfg.target_user ++ "/drive"
  else "/me/drive"

/-- What the two msal token acquisitions would return in this run: the
`access_token` entry of the result dictionary of
`acquire_token_for_client` respectively `acquire_token_by_device_flow`
(`none` when the dictionary has no such key, e.g. on a failed exchange). -/
structure AcquireEnv where
  appResult : Option String
  deviceResult : Option String
deriving DecidableEq, Repr

/-- Outcome of a call to `get_token`: a normally returned credential value
(possibly `None`), or a raised authentication error.  The source never
raises: the constructor `authError` exists only to state claims about
error surfacing. -/
inductive TokenOutcome
  | ok (cred : Option String)
  | authError (msg : String)
deriving DecidableEq, Repr

/-- Whether a token outcome is a raised `AuthError`. -/
def TokenOutcome.isAuthError : TokenOutcome → Bool
  | .authError _ => true
  | _ => false

/-- `get_token()` (`src/app.py` lines 68–87).  State passing is explicit:
the argument `cache` is the global `token_cache` before the call, the result
is `(returned outcome, token_cache after the call, whether an acquisition
was attempted)`.  Both the app branch (`result.get("access_token")`) and the
device branch store the optional access token in the cache and return it;
neither branch raises. -/
def get_token (cfg : Config) (env : AcquireEnv) (cache : Option String) :
    TokenOutcome × Option String × Bool :=
  if pyTruthyStr cache then (.ok cache, cache, false)
  else if cfg.auth_flow = "app" then (.ok env.appResult, env.appResult, true)
  else (.ok env.deviceResult, env.deviceResult, true)

/-- A sequence of `get_token` calls in one process run, threading the global
`token_cache`.  Returns the list of `(outcome, acquisition attempted)` pairs
and the final cache. -/
def run_get_token (cfg : Config) (envs : List AcquireEnv) (cache : Option String) :
    List (TokenOutcome × Bool) × Option String :=
  match envs with
  | [] => ([], cache)
  | e :: rest =>
      let r := get_token cfg e cache
      let rr := run_get_token cfg rest r.2.1
      ((r.1, r.2.2) :: rr.1, rr.2)

/-- The Microsoft Graph `folder` facet attached to folder items
(`{"childCount": n}`).  The code never inspects it, only its presence
(Python truthiness of the non-empty dictionary). -/
structure FolderFacet where
  childCount : Nat
deriving DecidableEq, Repr

/-- A raw item dictionary from the remote listing response; the handler reads
only the keys `name` and `folder`, each possibly absent. -/
structure RawItem where
  name : Option String
  folder : Option FolderFacet
deriving DecidableEq, Repr

/-- The per-item projection built by the `index` route (`src/app.py` lines
142–146): an ad hoc object with fields `name`, `folder` (the raw facet) and
`path = f"/{it.get('name')}"`. -/
structure DriveItem where
  name : Option String
  folder : Option FolderFacet
  path : String
deriving DecidableEq, Repr

/-- The template's folder test `{% if f.folder %}`: Python truthiness of the
stored facet, i.e. its presence (the Graph facet dictionary is non-empty). -/
def DriveItem.isFolderFlag (d : DriveItem) : Bool :=
  d.folder.isSome

/-- A remote HTTP response as the handlers consume it: the status code, the
`value` key of the parsed JSON body (`none` when the body has no such key,
in which case `r.json().get("value", [])` yields `[]`), and the raw body
bytes `r.content`. -/
structure HttpResponse where
  status : Nat
  jsonValue : Option (List RawItem)
  content : List Nat
deriving DecidableEq, Repr

/-- The single outbound HTTP request a handler issues. -/
structure GraphRequest where
  method : String
  url : String
deriving DecidableEq, Repr

/-- The `POST` request issued by the `mkdir` route: target URL plus the JSON
payload `{"name": name, "folder": {}, "@microsoft.graph.conflictBehavior":
"rename"}`. -/
structure MkdirPost where
  url : String
  payloadName : String
  conflictBehavior : String
deriving DecidableEq, Repr

/-- What a Flask handler produces from the remote response.  The source code
only ever renders a page, redirects, or sends a file; `remoteError` models
the surfaced fault the specification speaks of and is never produced. -/
inductive HandlerResult
  | page (files : List DriveItem)
  | redirect (loc : String)
  | fileAttachment (temp_path : String) (bytes : List Nat)
  | remoteError (status : Nat)
deriving DecidableEq, Repr

/-- Whether a handler outcome surfaces a remote error. -/
def HandlerResult.isRemoteError : HandlerResult → Bool
  | .remoteError _ => true
  | _ => false

/-- Python `s.rstrip("/")` on the character list: drop trailing slashes. -/
def rstripSlashL (l : List Char) : List Char :=
  (l.reverse.dropWhile (fun c => c = '/')).reverse

/-- Python `s.rstrip("/")`. -/
def rstripSlash (s : String) : String :=
  ⟨rstripSlashL s.data⟩

/-- Python `s.rpartition("/")` restricted to the two components the code
uses: `(head, tail)` where `tail` is everything after the last `'/'` and
`head` everything before it; when no `'/'` occurs, `("", s)` (Python returns
`("", "", s)` and the code binds `parent = ""`, `name = s`). -/
def rpartitionSlashL (l : List Char) : List Char × List Char :=
  match l.reverse.drop ((l.reverse.takeWhile (fun c => c ≠ '/')).length) with
  | [] => ([], l)
  | _ :: parentRev => (parentRev.reverse, (l.reverse.takeWhile (fun c => c ≠ '/')).reverse)

/-- Python `s.rpartition("/")` (head and tail components). -/
def rpartitionSlash (s : String) : String × String :=
  (⟨(rpartitionSlashL s.data).1⟩, ⟨(rpartitionSlashL s.data).2⟩)

/-- `os.path.basename` for POSIX paths: everything after the last `'/'`. -/
def basename (s : String) : String :=
  ⟨(s.data.reverse.takeWhile (fun c => c ≠ '/')).reverse⟩

/-- `os.path.join(a, b)` for POSIX paths with two components: `b` wins when
absolute; no separator is inserted after an empty or slash-terminated `a`. -/
def os_path_join (a b : String) : String :=
  if b.data.head? = some '/' then b
  else if a = "" ∨ a.data.getLast? = some '/' then a ++ b
  else a ++ "/" ++ b

/-- The listing request of the `index` route (`src/app.py` line 136):
`GET {GRAPH}{drive_prefix()}/root/children`. -/
def index_request (cfg : Config) : GraphRequest :=
  { method := "GET", url := GRAPH ++ drive_prefix cfg ++ "/root/children" }

/-- The item projection loop of the `index` route (`src/app.py` lines
140–146). -/
def index_files (items : List RawItem) : List DriveItem :=
  items.map fun it => { name := it.name, folder := it.folder, path := "/" ++ pyStr it.name }

/-- The `index` route outcome (`src/app.py` lines 131–148): read
`r.json().get("value", [])`, project every item, render the page.  The
response status is never consulted. -/
def index_route (resp : HttpResponse) : HandlerResult :=
  .page (index_files (resp.jsonValue.getD []))

/-- The `upload` route request (`src/app.py` line 158):
`PUT {GRAPH}{drive_prefix()}/root:{remote}:/content`. -/
def upload_request (cfg : Config) (remote : String) : GraphRequest :=
  { method := "PUT", url := GRAPH ++ drive_prefix cfg ++ "/root:" ++ remote ++ ":/content" }

/-- The `upload` route outcome (`src/app.py` lines 150–161): the response
`r` is bound but never inspected; the handler redirects to `/`. -/
def upload_route (_resp : HttpResponse) : HandlerResult :=
  .redirect "/"

/-- The `mkdir` route request (`src/app.py` lines 163–178): strip trailing
slashes, split off the leaf name at the last slash, and POST the folder
payload to the parent's children endpoint, or to the drive root's children
endpoint when the parent component is empty. -/
def mkdir_post (cfg : Config) (form_path : String) : MkdirPost :=
  let path := rstripSlash form_path
  let pn := rpartitionSlash path
  let url :=
    if pn.1 ≠ "" then GRAPH ++ drive_prefix cfg ++ "/root:" ++ pn.1 ++ ":/children"
    else GRAPH ++ drive_prefix cfg ++ "/root/children"
  { url := url, payloadName := pn.2, conflictBehavior := "rename" }

/-- The `mkdir` route outcome (`src/app.py` line 180): the POST response is
discarded; the handler redirects to `/`. -/
def mkdir_route (_resp : HttpResponse) : HandlerResult :=
  .redirect "/"

/-- The `delete` route request (`src/app.py` line 188):
`DELETE {GRAPH}{drive_prefix()}/root:{path}:/`. -/
def delete_request (cfg : Config) (path : String) : GraphRequest :=
  { method := "DELETE", url := GRAPH ++ drive_prefix cfg ++ "/root:" ++ path ++ ":/" }

/-- The `delete` route outcome (`src/app.py` lines 182–191): the DELETE
response is discarded; the handler redirects to `/`. -/
def delete_route (_resp : HttpResponse) : HandlerResult :=
  .redirect "/"

/-- The `download` route request (`src/app.py` line 199):
`GET {GRAPH}{drive_prefix()}/root:{path}:/content`. -/
def download_request (cfg : Config) (path : String) : GraphRequest :=
  { method := "GET", url := GRAPH ++ drive_prefix cfg ++ "/root:" ++ path ++ ":/content" }

/-- The local file the `download` route writes before serving (`src/app.py`
lines 203–207): `os.path.join(tempfile.gettempdir(), os.path.basename(path))`.
The system temp directory is a parameter. -/
def download_temp_path (tmpDir path : String) : String :=
  os_path_join tmpDir (basename path)

/-- The `download` route outcome (`src/app.py` lines 193–213): write
`r.content` to the temp path and send that file as an attachment.  The
response status is never consulted. -/
def download_route (tmpDir path : String) (resp : HttpResponse) : HandlerResult :=
  .fileAttachment (download_temp_path tmpDir path) resp.content

/-! ### Concrete values used by witnesses and counterexamples -/

/-- A device-mode configuration. -/
def cfgDevice : Config := ⟨"device", some "cid", some "tid", none, none⟩

/-- A fully populated app-mode configuration. -/
def cfgApp : Config := ⟨"app", some "cid", some "tid", some "secret", some "user@example.com"⟩

/-- App mode selected with `CLIENT_SECRET` and `TARGET_USER` unset. -/
def cfgAppUnset : Config := ⟨"app", some "cid", some "tid", none, none⟩

/-- An acquisition environment in which neither exchange yields a token. -/
def envNoToken : AcquireEnv := ⟨none, none⟩

/-- A not-found response with an empty body. -/
def resp404 : HttpResponse := ⟨404, none, []⟩

/-- A plain successful response with an empty body. -/
def resp200 : HttpResponse := ⟨200, none, []⟩

/-- A one-item listing used by the projection witness. -/
def itemsW : List RawItem := [⟨some "doc", some ⟨3⟩⟩]

/-! ### Helper lemmas about the string primitives -/

/-- String append is associative (on the underlying character lists). -/
theorem str_append_assoc (a b c : String) : a ++ b ++ c = a ++ (b ++ c) := by
  apply String.ext
  simp [String.data_append]

/-- `takeWhile (· ≠ '/')` of a slash-free block followed by a slash is the
block itself. -/
theorem takeWhile_ne_slash_append (l₁ l₂ : List Char) (h : ∀ c ∈ l₁, c ≠ '/') :
    (l₁ ++ '/' :: l₂).takeWhile (fun c => c ≠ '/') = l₁ := by
  induction l₁ with
  | nil => simp [List.takeWhile_cons]
  | cons a t ih =>
      have ha : a ≠ '/' := h a (List.mem_cons_self a t)
      have ht : ∀ c ∈ t, c ≠ '/' := fun c hc => h c (List.mem_cons_of_mem a hc)
      rw [List.cons_append, List.takeWhile_cons, ih ht]
      simp [ha]

/-- Dropping leading slashes past a block of slashes. -/
theorem dropWhile_slash_replicate (k : Nat) (l : List Char) :
    (List.replicate k '/' ++ l).dropWhile (fun c => c = '/') =
      l.dropWhile (fun c => c = '/') := by
  induction k with
  | zero => rfl
  | succ k ih => simp [List.replicate_succ, List.dropWhile_cons, ih]

/-- `rstrip("/")` is unaffected by appending trailing slashes. -/
theorem rstripSlashL_append_replicate (l : List Char) (k : Nat) :
    rstripSlashL (l ++ List.replicate k '/') = rstripSlashL l := by
  unfold rstripSlashL
  rw [List.reverse_append, List.reverse_replicate, dropWhile_slash_replicate]

/-- `rstrip("/")` leaves a list whose last character is not a slash alone. -/
theorem rstripSlashL_eq_self (l : List Char) (c : Char) (t : List Char)
    (hrev : l.reverse = c :: t) (hc : c ≠ '/') : rstripSlashL l = l := by
  unfold rstripSlashL
  rw [hrev, List.dropWhile_cons]
  simp [hc, ← hrev]

/-- `rpartition("/")` of `p ++ "/" ++ n` with slash-free `n` splits exactly
at that slash. -/
theorem rpartitionSlashL_append (p n : List Char) (h : ∀ c ∈ n, c ≠ '/') :
    rpartitionSlashL (p ++ '/' :: n) = (p, n) := by
  have hrev : (p ++ '/' :: n).reverse = n.reverse ++ '/' :: p.reverse := by
    simp
  have htake : (n.reverse ++ '/' :: p.reverse).takeWhile (fun c => c ≠ '/') = n.reverse :=
    takeWhile_ne_slash_append _ _ (fun c hc => h c (List.mem_reverse.mp hc))
  unfold rpartitionSlashL
  rw [hrev, htake, List.drop_left]
  simp

/-- Character-list view of `parent ++ "/" ++ name`. -/
theorem data_append_slash (parent name : String) :
    (parent ++ "/" ++ name).data = parent.data ++ '/' :: name.data := by
  rw [String.data_append, String.data_append]
  rw [List.append_assoc]
  rfl

/-- `rstrip("/")` leaves `parent ++ "/" ++ name` alone when `name` is
non-empty and slash-free. -/
theorem rstripSlash_slash_append (parent name : String) (hn : name ≠ "")
    (hslash : ∀ c ∈ name.data, c ≠ '/') :
    rstripSlash (parent ++ "/" ++ name) = parent ++ "/" ++ name := by
  have hd : name.data ≠ [] := fun h => hn (String.ext h)
  obtain ⟨c, t, hct⟩ : ∃ c t, name.data.reverse = c :: t := by
    cases hrev : name.data.reverse with
    | nil => exact absurd (by simpa using hrev) hd
    | cons c t => exact ⟨c, t, rfl⟩
  have hcmem : c ∈ name.data := by
    have hm : c ∈ name.data.reverse := by
      rw [hct]; exact List.mem_cons_self c t
    exact List.mem_reverse.mp hm
  have hrevfull : (parent ++ "/" ++ name).data.reverse = c :: (t ++ '/' :: parent.data.reverse) := by
    rw [data_append_slash, List.reverse_append, List.reverse_cons, hct]
    simp
  apply String.ext
  show rstripSlashL (parent ++ "/" ++ name).data = (parent ++ "/" ++ name).data
  exact rstripSlashL_eq_self _ c _ hrevfull (hslash c hcmem)

/-- `rpartition("/")` on strings: splitting `parent ++ "/" ++ name` with
slash-free `name`. -/
theorem rpartitionSlash_slash_append (parent name : String)
    (hslash : ∀ c ∈ name.data, c ≠ '/') :
    rpartitionSlash (parent ++ "/" ++ name) = (parent, name) := by
  unfold rpartitionSlash
  rw [data_append_slash, rpartitionSlashL_append parent.data name.data hslash]

/-- `basename` of `d ++ "/" ++ n` with slash-free `n` is `n`. -/
theorem basename_slash_append (d n : String) (hslash : ∀ c ∈ n.data, c ≠ '/') :
    basename (d ++ "/" ++ n) = n := by
  have hrev : (d ++ "/" ++ n).data.reverse = n.data.reverse ++ '/' :: d.data.reverse := by
    rw [data_append_slash]
    simp
  have htake : (n.data.reverse ++ '/' :: d.data.reverse).takeWhile (fun c => c ≠ '/') =
      n.data.reverse :=
    takeWhile_ne_slash_append _ _ (fun c hc => hslash c (List.mem_reverse.mp hc))
  unfold basename
  rw [hrev, htake, List.reverse_reverse]

/-! ### Claims -/

/-- C1: for every configured authentication mode, once `get_token` holds a
successfully acquired credential in the process-wide cache, every subsequent
call in that run returns that same credential unchanged, performs no expiry
check (the cache is consulted unconditionally) and attempts no further
acquisition. -/
theorem C1_acquireToken_idempotent_cache (cfg : Config) (envs : List AcquireEnv)
    (t : String) (h : t ≠ "") :
    run_get_token cfg envs (some t) =
      (List.replicate envs.length (TokenOutcome.ok (some t), false), some t) := by
  have ht : pyTruthyStr (some t) = true := by simp [pyTruthyStr, h]
  induction envs with
  | nil => rfl
  | cons e rest ih =>
      simp [run_get_token, get_token, ht, ih, List.replicate_succ]

/-- Witness for C1 at a concrete run: two further calls after a cached token
`"tok"` both return it and never re-acquire, for either mode's environments. -/
theorem C1_acquireToken_idempotent_cache_witness :
    run_get_token cfgDevice [⟨some "a", some "b"⟩, ⟨none, none⟩] (some "tok") =
      ([(TokenOutcome.ok (some "tok"), false), (TokenOutcome.ok (some "tok"), false)],
        some "tok") :=
  C1_acquireToken_idempotent_cache cfgDevice [⟨some "a", some "b"⟩, ⟨none, none⟩]
    "tok" (by decide)

/-- C2 counterexample: the claim says a non-2xx response surfaces as a
`RemoteError`; but `delete` on a missing path receiving a 404 redirects to
`/` exactly as on success — the response status is discarded and no error is
surfaced. -/
theorem C2_counterexample_delete_404_silent :
    delete_request cfgDevice "/no-such-file" =
      { method := "DELETE",
        url := "https://graph.microsoft.com/v1.0/me/drive/root:/no-such-file:/" } ∧
    delete_route resp404 = HandlerResult.redirect "/" ∧
    (delete_route resp404).isRemoteError = false := by
  refine ⟨?_, rfl, rfl⟩
  rfl

/-- C2 amended: no Storage Gateway handler consults the HTTP response
status: `upload`, `mkdir` and `delete` redirect to `/` for every response
(non-2xx included), `index` always renders a page and `download` always
sends the fetched body; no `RemoteError` is ever surfaced, so `delete` on a
non-existent path is a silent success. -/
theorem C2_amended_status_ignored (resp : HttpResponse) (tmpDir path : String) :
    upload_route resp = HandlerResult.redirect "/" ∧
    mkdir_route resp = HandlerResult.redirect "/" ∧
    delete_route resp = HandlerResult.redirect "/" ∧
    (index_route resp).isRemoteError = false ∧
    (download_route tmpDir path resp).isRemoteError = false :=
  ⟨rfl, rfl, rfl, rfl, rfl⟩

/-- C3 counterexample: the claim says app mode fails with an `AuthError`
when the exchange yields no access token; but `get_token` then returns the
credential `None` normally (and caches it), raising nothing. -/
theorem C3_counterexample_app_no_token_returns_none :
    get_token cfgApp envNoToken none = (TokenOutcome.ok none, none, true) ∧
    (get_token cfgApp envNoToken none).1.isAuthError = false := by
  refine ⟨?_, ?_⟩ <;> rfl

/-- C3 amended: in app mode, when the confidential-client exchange returns
no access token, `get_token` returns `None` as an ordinary value without
raising any `AuthError`; the `None` is not a truthy cache entry, so the next
call attempts acquisition again. -/
theorem C3_amended_app_no_token (cfg : Config) (env : AcquireEnv)
    (cache : Option String) (hmode : cfg.auth_flow = "app")
    (hc : pyTruthyStr cache = false) (henv : env.appResult = none) :
    get_token cfg env cache = (TokenOutcome.ok none, none, true) ∧
    pyTruthyStr (get_token cfg env cache).2.1 = false := by
  have h1 : get_token cfg env cache = (TokenOutcome.ok none, none, true) := by
    simp [get_token, hmode, hc, henv]
  rw [h1]
  exact ⟨rfl, rfl⟩

/-- Witness for C3 amended at the concrete failing exchange. -/
theorem C3_amended_app_no_token_witness :
    get_token cfgApp envNoToken none = (TokenOutcome.ok none, none, true) ∧
    pyTruthyStr (get_token cfgApp envNoToken none).2.1 = false :=
  C3_amended_app_no_token cfgApp envNoToken none rfl rfl rfl

/-- C5: a listing response whose `value` is the empty sequence renders the
page with an empty file list, and for any response at all the `index`
handler produces a page — never an error or other fault. -/
theorem C5_empty_listing (resp : HttpResponse) :
    (resp.jsonValue = some [] → index_route resp = HandlerResult.page []) ∧
    ∃ files, index_route resp = HandlerResult.page files := by
  constructor
  · intro h
    simp [index_route, h, index_files]
  · exact ⟨_, rfl⟩

/-- Witness for C5 at a concrete empty listing. -/
theorem C5_empty_listing_witness :
    index_route ⟨200, some [], []⟩ = HandlerResult.page [] :=
  (C5_empty_listing ⟨200, some [], []⟩).1 rfl

/-- C6: evaluating the code at the failing configuration (app mode with
`CLIENT_SECRET` and `TARGET_USER` unset): no configuration check exists, so
the listing request is still built — against `/users/None/drive` — and
issued; nothing resembling a `ConfigError` precedes the remote call. -/
theorem C6_app_mode_unguarded_eval :
    cfgAppUnset.client_secret = none ∧ cfgAppUnset.target_user = none ∧
    drive_prefix cfgAppUnset = "/users/None/drive" ∧
    index_request cfgAppUnset =
      { method := "GET",
        url := "https://graph.microsoft.com/v1.0/users/None/drive/root/children" } := by
  refine ⟨rfl, rfl, rfl, ?_⟩
  rfl

/-- General split behaviour of the `mkdir` request: for a non-empty parent
and a non-empty slash-free leaf, the POST targets the parent's children
endpoint with that leaf as payload name. -/
theorem mkdir_post_split (cfg : Config) (parent name : String) (hp : parent ≠ "")
    (hn : name ≠ "") (hslash : ∀ c ∈ name.data, c ≠ '/') :
    mkdir_post cfg (parent ++ "/" ++ name) =
      { url := GRAPH ++ drive_prefix cfg ++ "/root:" ++ parent ++ ":/children",
        payloadName := name, conflictBehavior := "rename" } := by
  have hstrip := rstripSlash_slash_append parent name hn hslash
  have hpart := rpartitionSlash_slash_append parent name hslash
  simp only [mkdir_post, hstrip, hpart]
  simp [hp]

/-- C4: `createFolder` splits the path at the last slash; with a non-empty
parent it POSTs the folder payload (conflict behaviour "rename") to the
parent's children endpoint with the leaf as name — in particular `"/a/b"`
targets `/a`'s children with leaf `b` — and with an empty parent (`"/b"`) it
POSTs to the drive root's children endpoint with leaf `b`. -/
theorem C4_mkdir_parent_split (cfg : Config) :
    mkdir_post cfg "/a/b" =
      { url := GRAPH ++ drive_prefix cfg ++ "/root:" ++ "/a" ++ ":/children",
        payloadName := "b", conflictBehavior := "rename" } ∧
    mkdir_post cfg "/b" =
      { url := GRAPH ++ drive_prefix cfg ++ "/root/children",
        payloadName := "b", conflictBehavior := "rename" } ∧
    (∀ parent name : String, parent ≠ "" → name ≠ "" →
      (∀ c ∈ name.data, c ≠ '/') →
      mkdir_post cfg (parent ++ "/" ++ name) =
        { url := GRAPH ++ drive_prefix cfg ++ "/root:" ++ parent ++ ":/children",
          payloadName := name, conflictBehavior := "rename" }) := by
  refine ⟨?_, ?_, fun parent name hp hn hs => mkdir_post_split cfg parent name hp hn hs⟩
  · exact mkdir_post_split cfg "/a" "b" (by decide) (by decide) (by decide)
  · have hstrip : rstripSlash "/b" = "/b" := rfl
    have hpart : rpartitionSlash "/b" = ("", "b") := rfl
    simp only [mkdir_post, hstrip, hpart]
    simp

/-- Witness for C4: the general split conjunct at parent `/a`, leaf `b`, in
the device-mode configuration. -/
theorem C4_mkdir_parent_split_witness :
    mkdir_post cfgDevice ("/a" ++ "/" ++ "b") =
      { url := GRAPH ++ drive_prefix cfgDevice ++ "/root:" ++ "/a" ++ ":/children",
        payloadName := "b", conflictBehavior := "rename" } :=
  (C4_mkdir_parent_split cfgDevice).2.2 "/a" "b" (by decide) (by decide) (by decide)

/-- C7: the drive root is a function of the authentication mode alone —
`/me/drive` in device mode, `/users/{TARGET_USER}/drive` in app mode — and
every Storage Gateway operation's URL is that root (prefixed by the fixed
Graph base) extended by the operation's own suffix. -/
theorem C7_drive_root_by_mode (cid tid cs user : Option String) (cfg : Config)
    (path remote form : String) :
    drive_prefix ⟨"device", cid, tid, cs, user⟩ = "/me/drive" ∧
    drive_prefix ⟨"app", cid, tid, cs, user⟩ = "/users/" ++ pyStr user ++ "/drive" ∧
    (index_request cfg).url = GRAPH ++ drive_prefix cfg ++ "/root/children" ∧
    (upload_request cfg remote).url =
      GRAPH ++ drive_prefix cfg ++ "/root:" ++ remote ++ ":/content" ∧
    (delete_request cfg path).url =
      GRAPH ++ drive_prefix cfg ++ "/root:" ++ path ++ ":/" ∧
    (download_request cfg path).url =
      GRAPH ++ drive_prefix cfg ++ "/root:" ++ path ++ ":/content" ∧
    ∃ suffix, (mkdir_post cfg form).url = GRAPH ++ drive_prefix cfg ++ suffix := by
  refine ⟨rfl, rfl, rfl, rfl, rfl, rfl, ?_⟩
  simp only [mkdir_post]
  by_cases hp : (rpartitionSlash (rstripSlash form)).1 ≠ ""
  · refine ⟨"/root:" ++ (rpartitionSlash (rstripSlash form)).1 ++ ":/children", ?_⟩
    rw [if_pos hp]
    simp only [str_append_assoc]
  · refine ⟨"/root/children", ?_⟩
    rw [if_neg hp]

/-- C8: the listing projection is one-to-one over the returned items, and
for each item the projection carries the item's name, stores the folder
facet so that the rendered folder flag is exactly the facet's presence, and
derives the display path as "/" plus the (rendered) name — shallow, a single
level only. -/
theorem C8_drive_item_projection (items : List RawItem) (i : Nat)
    (h : i < items.length) :
    (index_files items).length = items.length ∧
    (index_files items).get ⟨i, by simpa [index_files] using h⟩ =
      { name := (items.get ⟨i, h⟩).name,
        folder := (items.get ⟨i, h⟩).folder,
        path := "/" ++ pyStr (items.get ⟨i, h⟩).name } ∧
    ((index_files items).get ⟨i, by simpa [index_files] using h⟩).isFolderFlag =
      ((items.get ⟨i, h⟩).folder).isSome := by
  refine ⟨by simp [index_files], ?_, ?_⟩ <;>
    simp [index_files, DriveItem.isFolderFlag]

/-- Witness for C8 at a one-item listing: the folder `doc` projects to name
`doc`, a set folder flag, and display path `/doc`. -/
theorem C8_drive_item_projection_witness :
    (index_files itemsW).get ⟨0, by decide⟩ =
      { name := some "doc", folder := some ⟨3⟩, path := "/doc" } ∧
    ((index_files itemsW).get ⟨0, by decide⟩).isFolderFlag = true := by
  have h := C8_drive_item_projection itemsW 0 (by decide)
  exact ⟨h.2.1.trans (by decide), h.2.2.trans (by decide)⟩

/-- C9: the `mkdir` request is invariant under trailing slashes — appending
any number of `/` characters to the form path yields the identical POST
(same endpoint, same leaf name) — and a path of only slashes strips to the
empty string, posting an empty leaf name to the root children endpoint. -/
theorem C9_mkdir_trailing_slash_invariant (cfg : Config) (p : String) (k : Nat) :
    mkdir_post cfg (p ++ ⟨List.replicate k '/'⟩) = mkdir_post cfg p ∧
    mkdir_post cfg ⟨List.replicate k '/'⟩ =
      { url := GRAPH ++ drive_prefix cfg ++ "/root/children",
        payloadName := "", conflictBehavior := "rename" } := by
  have hrep : ∀ q : String, rstripSlash (q ++ ⟨List.replicate k '/'⟩) = rstripSlash q := by
    intro q
    apply String.ext
    show rstripSlashL (q ++ ⟨List.replicate k '/'⟩).data = rstripSlashL q.data
    rw [String.data_append]
    exact rstripSlashL_append_replicate q.data k
  constructor
  · simp only [mkdir_post, hrep p]
  · have hempty : rstripSlash ⟨List.replicate k '/'⟩ = "" := by
      have h0 : ("" : String) ++ ⟨List.replicate k '/'⟩ = ⟨List.replicate k '/'⟩ := by
        apply String.ext
        rw [String.data_append]
        rfl
      rw [← h0, hrep ""]
      rfl
    have hpart : rpartitionSlash "" = ("", "") := rfl
    simp only [mkdir_post, hempty, hpart]
    simp

/-- C10: the `download` handler writes the fetched bytes to the system temp
directory joined with the basename of the requested path before serving the
file; directory components of the remote path are discarded, so two
downloads of paths sharing a final slash-free component target the same
local temporary file. -/
theorem C10_download_temp_basename (tmpDir d₁ d₂ n p : String)
    (resp : HttpResponse) (hslash : ∀ c ∈ n.data, c ≠ '/') :
    download_route tmpDir p resp =
      HandlerResult.fileAttachment (os_path_join tmpDir (basename p)) resp.content ∧
    basename (d₁ ++ "/" ++ n) = n ∧
    download_route tmpDir (d₁ ++ "/" ++ n) resp =
      download_route tmpDir (d₂ ++ "/" ++ n) resp := by
  refine ⟨rfl, basename_slash_append d₁ n hslash, ?_⟩
  simp only [download_route, download_temp_path,
    basename_slash_append d₁ n hslash, basename_slash_append d₂ n hslash]

/-- Witness for C10: downloading `/docs/x.txt` and `/backup/x.txt` both
materialize at `/tmp/x.txt`. -/
theorem C10_download_temp_basename_witness :
    basename ("/docs" ++ "/" ++ "x.txt") = "x.txt" ∧
    download_route "/tmp" ("/docs" ++ "/" ++ "x.txt") resp200 =
      download_route "/tmp" ("/backup" ++ "/" ++ "x.txt") resp200 ∧
    download_route "/tmp" ("/docs" ++ "/" ++ "x.txt") resp200 =
      HandlerResult.fileAttachment "/tmp/x.txt" [] := by
  have h := C10_download_temp_basename "/tmp" "/docs" "/backup" "x.txt"
    ("/docs" ++ "/" ++ "x.txt") resp200 (by decide)
  exact ⟨h.2.1, h.2.2, h.1.trans (by decide)⟩

end OneDriveApp
